import Mathlib

/-!
Verification of the session layer of the Steam integration client
(src/src/protocol/protocol_client.py): the error-code classifier, the
authentication handshake, friend-relationship reconciliation, the license
import-chain, the lazy translation fill, and the collections rendezvous.

Python functions are shallowly embedded as Lean functions; an assertion
failure (Python `assert`) is modelled as `none` of an `Option` result;
transport requests and cache notifications issued by a handler are collected
into an explicit list of `Effect`s, in issue order.
-/

/-- Transport-level result code. Modelled from the spec: the enumeration
itself lives in `protocol/consts.py`, which is not under src/; the spec
describes it as "success or one of ~30 failure reasons" (§3), so the
constructors are exactly the member names referenced by
`protocol_client.py`, plus `OtherCode` for every code not named there. -/
inductive EResult where
  | OK
  | AccountNotFound
  | InvalidSteamID
  | InvalidLoginAuthCode
  | AccountLogonDeniedNoMailSent
  | AccountLoginDeniedNeedTwoFactor
  | ConnectFailed
  | IOFailure
  | RemoteDisconnect
  | Busy
  | ServiceUnavailable
  | Pending
  | IPNotFound
  | TryAnotherCM
  | Cancelled
  | Timeout
  | RateLimitExceeded
  | LimitExceeded
  | Suspended
  | AccountLocked
  | AccountLogonDeniedVerifiedEmailRequired
  | Banned
  | AccessDenied
  | InsufficientPrivilege
  | LogonSessionReplaced
  | Blocked
  | Ignored
  | AccountDisabled
  | AccountNotFeatured
  | AccountLogonDenied
  | DataCorruption
  | DiskFull
  | RemoteCallFailed
  | RemoteFileConflict
  | BadResponse
  | OtherCode (n : Nat)
  deriving DecidableEq, Repr

/-- The nine caller-facing error categories of `galaxy.api.errors` used by
`translate_error` (spec §3 / §4.1). -/
inductive ErrorCategory where
  | InvalidCredentials
  | NetworkError
  | BackendNotAvailable
  | BackendTimeout
  | TemporaryBlocked
  | Banned
  | AccessDenied
  | BackendError
  | UnknownError
  deriving DecidableEq, Repr

/-- A classified error as returned by `translate_error`: its category and the
diagnostic payload. In the source every branch constructs the error with
`data = {"result": result}` except the `BackendError` branch, which returns
the bare class; `data = none` models that missing payload. -/
structure TranslatedError where
  category : ErrorCategory
  data : Option EResult
  deriving DecidableEq, Repr

/-- Embedding of `translate_error` (protocol_client.py lines 17-77). The
leading `assert result != EResult.OK` is modelled by returning `none` on
`OK`; each `if result in (...)` chain is an `if result ∈ [...]` test in the
source's order. Note line 75 of the source returns `galaxy.api.errors.BackendError`
itself, not `BackendError(data)`, hence `data := none` on that branch. -/
def translate_error (result : EResult) : Option TranslatedError :=
  if result = EResult.OK then
    none
  else
    let data : Option EResult := some result
    if result ∈ [EResult.AccountNotFound, EResult.InvalidSteamID,
        EResult.InvalidLoginAuthCode, EResult.AccountLogonDeniedNoMailSent,
        EResult.AccountLoginDeniedNeedTwoFactor] then
      some ⟨ErrorCategory.InvalidCredentials, data⟩
    else if result ∈ [EResult.ConnectFailed, EResult.IOFailure,
        EResult.RemoteDisconnect] then
      some ⟨ErrorCategory.NetworkError, data⟩
    else if result ∈ [EResult.Busy, EResult.ServiceUnavailable, EResult.Pending,
        EResult.IPNotFound, EResult.TryAnotherCM, EResult.Cancelled] then
      some ⟨ErrorCategory.BackendNotAvailable, data⟩
    else if result = EResult.Timeout then
      some ⟨ErrorCategory.BackendTimeout, data⟩
    else if result ∈ [EResult.RateLimitExceeded, EResult.LimitExceeded,
        EResult.Suspended, EResult.AccountLocked,
        EResult.AccountLogonDeniedVerifiedEmailRequired] then
      some ⟨ErrorCategory.TemporaryBlocked, data⟩
    else if result = EResult.Banned then
      some ⟨ErrorCategory.Banned, data⟩
    else if result ∈ [EResult.AccessDenied, EResult.InsufficientPrivilege,
        EResult.LogonSessionReplaced, EResult.Blocked, EResult.Ignored,
        EResult.AccountDisabled, EResult.AccountNotFeatured,
        EResult.AccountLogonDenied] then
      some ⟨ErrorCategory.AccessDenied, data⟩
    else if result ∈ [EResult.DataCorruption, EResult.DiskFull,
        EResult.RemoteCallFailed, EResult.RemoteFileConflict,
        EResult.BadResponse] then
      some ⟨ErrorCategory.BackendError, none⟩
    else
      some ⟨ErrorCategory.UnknownError, data⟩

/-- C1: for every result code listed in the classifier table of §4.1,
`translate_error` returns an error of exactly the category of that row, and
every non-Success code outside the table (here: every `OtherCode n`) is
classified `UnknownError`. -/
theorem translate_error_classifies :
    (translate_error EResult.AccountNotFound).map TranslatedError.category
      = some ErrorCategory.InvalidCredentials ∧
    (translate_error EResult.InvalidSteamID).map TranslatedError.category
      = some ErrorCategory.InvalidCredentials ∧
    (translate_error EResult.InvalidLoginAuthCode).map TranslatedError.category
      = some ErrorCategory.InvalidCredentials ∧
    (translate_error EResult.AccountLogonDeniedNoMailSent).map TranslatedError.category
      = some ErrorCategory.InvalidCredentials ∧
    (translate_error EResult.AccountLoginDeniedNeedTwoFactor).map TranslatedError.category
      = some ErrorCategory.InvalidCredentials ∧
    (translate_error EResult.ConnectFailed).map TranslatedError.category
      = some ErrorCategory.NetworkError ∧
    (translate_error EResult.IOFailure).map TranslatedError.category
      = some ErrorCategory.NetworkError ∧
    (translate_error EResult.RemoteDisconnect).map TranslatedError.category
      = some ErrorCategory.NetworkError ∧
    (translate_error EResult.Busy).map TranslatedError.category
      = some ErrorCategory.BackendNotAvailable ∧
    (translate_error EResult.ServiceUnavailable).map TranslatedError.category
      = some ErrorCategory.BackendNotAvailable ∧
    (translate_error EResult.Pending).map TranslatedError.category
      = some ErrorCategory.BackendNotAvailable ∧
    (translate_error EResult.IPNotFound).map TranslatedError.category
      = some ErrorCategory.BackendNotAvailable ∧
    (translate_error EResult.TryAnotherCM).map TranslatedError.category
      = some ErrorCategory.BackendNotAvailable ∧
    (translate_error EResult.Cancelled).map TranslatedError.category
      = some ErrorCategory.BackendNotAvailable ∧
    (translate_error EResult.Timeout).map TranslatedError.category
      = some ErrorCategory.BackendTimeout ∧
    (translate_error EResult.RateLimitExceeded).map TranslatedError.category
      = some ErrorCategory.TemporaryBlocked ∧
    (translate_error EResult.LimitExceeded).map TranslatedError.category
      = some ErrorCategory.TemporaryBlocked ∧
    (translate_error EResult.Suspended).map TranslatedError.category
      = some ErrorCategory.TemporaryBlocked ∧
    (translate_error EResult.AccountLocked).map TranslatedError.category
      = some ErrorCategory.TemporaryBlocked ∧
    (translate_error EResult.AccountLogonDeniedVerifiedEmailRequired).map TranslatedError.category
      = some ErrorCategory.TemporaryBlocked ∧
    (translate_error EResult.Banned).map TranslatedError.category
      = some ErrorCategory.Banned ∧
    (translate_error EResult.AccessDenied).map TranslatedError.category
      = some ErrorCategory.AccessDenied ∧
    (translate_error EResult.InsufficientPrivilege).map TranslatedError.category
      = some ErrorCategory.AccessDenied ∧
    (translate_error EResult.LogonSessionReplaced).map TranslatedError.category
      = some ErrorCategory.AccessDenied ∧
    (translate_error EResult.Blocked).map TranslatedError.category
      = some ErrorCategory.AccessDenied ∧
    (translate_error EResult.Ignored).map TranslatedError.category
      = some ErrorCategory.AccessDenied ∧
    (translate_error EResult.AccountDisabled).map TranslatedError.category
      = some ErrorCategory.AccessDenied ∧
    (translate_error EResult.AccountNotFeatured).map TranslatedError.category
      = some ErrorCategory.AccessDenied ∧
    (translate_error EResult.AccountLogonDenied).map TranslatedError.category
      = some ErrorCategory.AccessDenied ∧
    (translate_error EResult.DataCorruption).map TranslatedError.category
      = some ErrorCategory.BackendError ∧
    (translate_error EResult.DiskFull).map TranslatedError.category
      = some ErrorCategory.BackendError ∧
    (translate_error EResult.RemoteCallFailed).map TranslatedError.category
      = some ErrorCategory.BackendError ∧
    (translate_error EResult.RemoteFileConflict).map TranslatedError.category
      = some ErrorCategory.BackendError ∧
    (translate_error EResult.BadResponse).map TranslatedError.category
      = some ErrorCategory.BackendError ∧
    ∀ n : Nat, (translate_error (EResult.OtherCode n)).map TranslatedError.category
      = some ErrorCategory.UnknownError := by
  refine ⟨rfl, rfl, rfl, rfl, rfl, rfl, rfl, rfl, rfl, rfl, rfl, rfl, rfl, rfl,
    rfl, rfl, rfl, rfl, rfl, rfl, rfl, rfl, rfl, rfl, rfl, rfl, rfl, rfl, rfl,
    rfl, rfl, rfl, rfl, rfl, ?_⟩
  intro n
  rfl

/-- C2: contrary to the spec's "every category carries the original code",
the `BackendError` branch of `translate_error` (source line 75) returns the
bare error class, so for `DataCorruption` (and the other four codes of that
row) the produced error carries no diagnostic payload at all. -/
theorem translate_error_backend_error_missing_data :
    translate_error EResult.DataCorruption
      = some ⟨ErrorCategory.BackendError, none⟩ ∧
    (translate_error EResult.DataCorruption).map TranslatedError.data
      ≠ some (some EResult.DataCorruption) ∧
    (translate_error EResult.DiskFull).map TranslatedError.data = some none ∧
    (translate_error EResult.RemoteCallFailed).map TranslatedError.data = some none ∧
    (translate_error EResult.RemoteFileConflict).map TranslatedError.data = some none ∧
    (translate_error EResult.BadResponse).map TranslatedError.data = some none := by
  refine ⟨rfl, ?_, rfl, rfl, rfl, rfl⟩
  decide

/-- Friend relationship state. Modelled from the spec: the enumeration lives
in `protocol/consts.py`, not under src/; the spec gives the state space
"relationship state ∈ {None, Friend, other}" (§3), so `Other n` stands for
every member other than `None_` and `Friend`. -/
inductive EFriendRelationship where
  | None_
  | Friend
  | Other (n : Nat)
  deriving DecidableEq, Repr

/-- Persona state. Modelled from the spec: the enumeration lives in
`protocol/consts.py`, not under src/; only `Invisible` is used by the
session layer (§4.4). -/
inductive EPersonaState where
  | Invisible
  | OtherState (n : Nat)
  deriving DecidableEq, Repr

/-- A transport request or cache notification issued by a handler, in issue
order: the `ProtobufClient` calls `set_persona_state`, `get_friends_statuses`,
`get_user_infos`, `get_packages_info`, `get_presence_localization`, and the
games-cache notification `start_packages_import`. -/
inductive Effect where
  | setPersonaState (state : EPersonaState)
  | getFriendsStatuses
  | getUserInfos (user_ids : List Nat) (flags : Nat)
  | startPackagesImport (package_ids : List Nat)
  | getPackagesInfo (package_ids : List Nat)
  | getPresenceLocalization (appid : Nat)
  deriving DecidableEq, Repr

/-- The fixed status-flag mask `ProtocolClient._STATUS_FLAG` (source line 81). -/
def STATUS_FLAG : Nat := 1106

/-- The for-loop of `_relationship_handler` (source lines 152-161), processing
the relationship events in delivery order. The Friends Cache is a set of user
identifiers; `add` and `remove` are modelled from the spec (§3: the cache
"supports add, remove, reset-to-set", its implementation `friends_cache.py`
is not under src/) as `Finset.insert` and `Finset.erase`. Returns `none` when
the `assert incremental` on a None-state event in a full snapshot fails. -/
def rel_loop (incremental : Bool) :
    List (Nat × EFriendRelationship) → Finset Nat → List Nat → List Nat →
    Option (Finset Nat × List Nat × List Nat)
  | [], cache, initial_friends, new_friends =>
      some (cache, initial_friends, new_friends)
  | (user_id, relationship) :: rest, cache, initial_friends, new_friends =>
      if relationship = EFriendRelationship.Friend then
        if incremental then
          rel_loop incremental rest (insert user_id cache) initial_friends
            (new_friends ++ [user_id])
        else
          rel_loop incremental rest cache (initial_friends ++ [user_id]) new_friends
      else if relationship = EFriendRelationship.None_ then
        if incremental then
          rel_loop incremental rest (cache.erase user_id) initial_friends new_friends
        else
          none
      else
        rel_loop incremental rest cache initial_friends new_friends

/-- Embedding of `_relationship_handler` (source lines 148-172): run the
event loop, then on a full snapshot reset the cache to exactly the
`initial_friends` list (spec §3: reset-to-set) and issue the persona-state
change, the statuses request and the user-info request for `initial_friends`;
finally, if `new_friends` is non-empty, issue a statuses request and a
user-info request for `new_friends`. Returns the resulting cache and the
issued effects, or `none` on assertion failure. -/
def relationship_handler (incremental : Bool)
    (friends : List (Nat × EFriendRelationship)) (cache : Finset Nat) :
    Option (Finset Nat × List Effect) :=
  match rel_loop incremental friends cache [] [] with
  | none => none
  | some (cache1, initial_friends, new_friends) =>
      let full_part : Finset Nat × List Effect :=
        if incremental then
          (cache1, [])
        else
          (initial_friends.toFinset,
           [Effect.setPersonaState EPersonaState.Invisible,
            Effect.getFriendsStatuses,
            Effect.getUserInfos initial_friends STATUS_FLAG])
      let incr_part : List Effect :=
        if new_friends ≠ [] then
          [Effect.getFriendsStatuses, Effect.getUserInfos new_friends STATUS_FLAG]
        else
          []
      some (full_part.1, full_part.2 ++ incr_part)

/-- All user identifiers occurring in some user-info request of an effect
list. -/
def userInfoIds : List Effect → List Nat
  | [] => []
  | Effect.getUserInfos ids _ :: rest => ids ++ userInfoIds rest
  | _ :: rest => userInfoIds rest

/-- In incremental mode the event loop never fails and, when the batch holds
no Friend-state event, it leaves the `initial_friends` and `new_friends`
accumulators untouched. -/
lemma rel_loop_no_friend (events : List (Nat × EFriendRelationship)) :
    ∀ cache init newf,
    (∀ p ∈ events, p.2 ≠ EFriendRelationship.Friend) →
    ∃ cache', rel_loop true events cache init newf = some (cache', init, newf) := by
  induction events with
  | nil =>
    intro cache init newf _
    exact ⟨cache, rfl⟩
  | cons p rest ih =>
    intro cache init newf h
    obtain ⟨uid, rel⟩ := p
    have hrel : rel ≠ EFriendRelationship.Friend := h (uid, rel) (List.mem_cons_self ..)
    have hrest : ∀ q ∈ rest, q.2 ≠ EFriendRelationship.Friend :=
      fun q hq => h q (List.mem_cons_of_mem _ hq)
    by_cases hn : rel = EFriendRelationship.None_
    · subst hn
      simpa [rel_loop] using ih (cache.erase uid) init newf hrest
    · obtain ⟨c', hc⟩ := ih cache init newf hrest
      exact ⟨c', by simp [rel_loop, hrel, hn, hc]⟩

/-- Frame property of the event loop: an identifier that occurs in the batch
only with a state other than Friend and None is never inserted into or erased
from the cache, and joins neither accumulator list. -/
lemma rel_loop_frame (incr : Bool) (uid : Nat)
    (events : List (Nat × EFriendRelationship)) :
    ∀ cache init newf cache' init' newf',
    (∀ r, (uid, r) ∈ events →
      r ≠ EFriendRelationship.Friend ∧ r ≠ EFriendRelationship.None_) →
    rel_loop incr events cache init newf = some (cache', init', newf') →
    ((uid ∈ cache' ↔ uid ∈ cache) ∧ (uid ∈ init' ↔ uid ∈ init) ∧
      (uid ∈ newf' ↔ uid ∈ newf)) := by
  induction events with
  | nil =>
    intro cache init newf cache' init' newf' _ heq
    simp only [rel_loop, Option.some.injEq, Prod.mk.injEq] at heq
    obtain ⟨h1, h2, h3⟩ := heq
    subst h1; subst h2; subst h3
    exact ⟨Iff.rfl, Iff.rfl, Iff.rfl⟩
  | cons p rest ih =>
    intro cache init newf cache' init' newf' h heq
    obtain ⟨v, rel⟩ := p
    have hrest : ∀ r, (uid, r) ∈ rest →
        r ≠ EFriendRelationship.Friend ∧ r ≠ EFriendRelationship.None_ :=
      fun r hr => h r (List.mem_cons_of_mem _ hr)
    by_cases hv : v = uid
    · subst hv
      have hself := h rel (List.mem_cons_self ..)
      simp only [rel_loop, if_neg hself.1, if_neg hself.2] at heq
      exact ih cache init newf cache' init' newf' hrest heq
    · have hvu : uid ≠ v := fun hh => hv hh.symm
      by_cases hF : rel = EFriendRelationship.Friend
      · subst hF
        cases incr with
        | true =>
          simp [rel_loop] at heq
          have frame := ih (insert v cache) init (newf ++ [v])
            cache' init' newf' hrest heq
          refine ⟨frame.1.trans ?_, frame.2.1, frame.2.2.trans ?_⟩
          · simp [Finset.mem_insert, hvu]
          · simp [List.mem_append, hvu]
        | false =>
          simp [rel_loop] at heq
          have frame := ih cache (init ++ [v]) newf cache' init' newf' hrest heq
          refine ⟨frame.1, frame.2.1.trans ?_, frame.2.2⟩
          simp [List.mem_append, hvu]
      · by_cases hN : rel = EFriendRelationship.None_
        · subst hN
          cases incr with
          | true =>
            simp [rel_loop, hF] at heq
            have frame := ih (cache.erase v) init newf cache' init' newf' hrest heq
            refine ⟨frame.1.trans ?_, frame.2.1, frame.2.2⟩
            simp [Finset.mem_erase, hvu]
          | false =>
            simp [rel_loop, hF] at heq
        · simp only [rel_loop, if_neg hF, if_neg hN] at heq
          exact ih cache init newf cache' init' newf' hrest heq

/-- C3 counterexample: the full (incremental=false) snapshot
`{A: Friend, B: Friend, C: None}` does raise — the None-state event hits the
handler's `assert incremental` (source line 160), modelled as `none` — so the
claim "must not raise" is false at the concrete input A=1, B=2, C=3. -/
theorem relationship_full_none_raises :
    relationship_handler false
      [((1 : Nat), EFriendRelationship.Friend), (2, EFriendRelationship.Friend),
       (3, EFriendRelationship.None_)] ∅ = none := by
  rfl

/-- C3 (amended): a full snapshot containing a None-state event fails the
handler's assertion; without that event, a full snapshot `{A: Friend,
B: Friend}` does not raise, the Friends Cache membership afterwards equals
exactly `{A, B}`, and exactly one persona-state change, one friend-statuses
request and one user-info request for `[A, B]` are issued, in that order. -/
theorem relationship_full_snapshot_spec (A B C : Nat) (cache₀ : Finset Nat) :
    relationship_handler false
      [(A, EFriendRelationship.Friend), (B, EFriendRelationship.Friend),
       (C, EFriendRelationship.None_)] cache₀ = none ∧
    relationship_handler false
      [(A, EFriendRelationship.Friend), (B, EFriendRelationship.Friend)] cache₀
      = some ({A, B},
        [Effect.setPersonaState EPersonaState.Invisible,
         Effect.getFriendsStatuses,
         Effect.getUserInfos [A, B] STATUS_FLAG]) := by
  constructor
  · simp [relationship_handler, rel_loop]
  · simp [relationship_handler, rel_loop]

/-- C4: an incremental batch `{D: Friend}` on top of cache `{A, B}` yields
cache membership `{A, B, D}` and issues exactly one friend-statuses request
and one user-info request for `[D]` only; and an incremental batch with no
Friend-state event issues no request at all. -/
theorem relationship_incremental_delta (A B D : Nat)
    (events : List (Nat × EFriendRelationship)) (cache₀ : Finset Nat)
    (h : ∀ p ∈ events, p.2 ≠ EFriendRelationship.Friend) :
    relationship_handler true [(D, EFriendRelationship.Friend)] {A, B}
      = some ({A, B, D},
        [Effect.getFriendsStatuses, Effect.getUserInfos [D] STATUS_FLAG]) ∧
    (relationship_handler true events cache₀).map Prod.snd = some [] := by
  constructor
  · have hset : insert D ({A, B} : Finset Nat) = {A, B, D} := by
      ext x
      simp only [Finset.mem_insert, Finset.mem_singleton]
      tauto
    simp [relationship_handler, rel_loop, hset]
  · obtain ⟨c', hc⟩ := rel_loop_no_friend events cache₀ [] [] h
    simp [relationship_handler, hc]

/-- Witness for C4 at A=1, B=2, D=3 and the Friend-free incremental batch
`{7: None}` over cache `{7}`. -/
theorem relationship_incremental_delta_witness :
    relationship_handler true [((3 : Nat), EFriendRelationship.Friend)] {1, 2}
      = some ({1, 2, 3},
        [Effect.getFriendsStatuses, Effect.getUserInfos [3] STATUS_FLAG]) ∧
    (relationship_handler true [((7 : Nat), EFriendRelationship.None_)] {7}).map
      Prod.snd = some [] := by
  exact relationship_incremental_delta 1 2 3
    [((7 : Nat), EFriendRelationship.None_)] {7}
    (by intro p hp; simp at hp; subst hp; decide)

/-- C9 counterexample: in a full snapshot, an event whose state is neither
Friend nor None does not leave the cache unchanged with respect to its
identifier — the snapshot reset drops identifier 5 (present before, with an
Other-state event) from the cache. -/
theorem relationship_other_state_full_reset_drops :
    relationship_handler false [((5 : Nat), EFriendRelationship.Other 0)] {5}
      = some (∅,
        [Effect.setPersonaState EPersonaState.Invisible,
         Effect.getFriendsStatuses,
         Effect.getUserInfos [] STATUS_FLAG]) ∧
    (5 : Nat) ∈ ({5} : Finset Nat) ∧ (5 : Nat) ∉ (∅ : Finset Nat) := by
  refine ⟨?_, by decide, by decide⟩
  rfl

/-- C9 (amended): an identifier occurring only with a state other than
Friend and None joins neither the initial-friends nor the new-friends list
and never appears in a user-info request; in incremental mode its cache
membership is unchanged, while in a full snapshot it is excluded from the
reset cache (so any prior membership is dropped by the reset, not retained). -/
theorem relationship_other_state_frame (incr : Bool)
    (events : List (Nat × EFriendRelationship)) (cache : Finset Nat) (uid : Nat)
    (h : ∀ r, (uid, r) ∈ events →
      r ≠ EFriendRelationship.Friend ∧ r ≠ EFriendRelationship.None_) :
    ∀ p : Finset Nat × List Effect,
      relationship_handler incr events cache = some p →
      uid ∉ userInfoIds p.2 ∧
        (if incr = true then (uid ∈ p.1 ↔ uid ∈ cache) else uid ∉ p.1) := by
  intro p hp
  cases heq : rel_loop incr events cache [] [] with
  | none => simp [relationship_handler, heq] at hp
  | some t =>
    obtain ⟨cache1, initial, newf⟩ := t
    have frame := rel_loop_frame incr uid events cache [] [] cache1 initial newf h heq
    have hinit : uid ∉ initial := fun hh => by simpa using frame.2.1.mp hh
    have hnewf : uid ∉ newf := fun hh => by simpa using frame.2.2.mp hh
    simp only [relationship_handler, heq] at hp
    cases incr with
    | true =>
      simp only [if_true, reduceIte] at hp
      by_cases hnf : newf = []
      · subst hnf
        simp only [ne_eq, not_true_eq_false, reduceIte] at hp
        cases hp
        simpa [userInfoIds] using frame.1
      · simp only [ne_eq, hnf, not_false_eq_true, reduceIte] at hp
        cases hp
        simp only [userInfoIds, List.append_nil, List.nil_append]
        refine ⟨by simpa [userInfoIds] using hnewf, by simpa using frame.1⟩
    | false =>
      simp only [Bool.false_eq_true, reduceIte] at hp
      by_cases hnf : newf = []
      · subst hnf
        simp only [ne_eq, not_true_eq_false, reduceIte] at hp
        cases hp
        constructor
        · simpa [userInfoIds] using hinit
        · simpa [List.mem_toFinset] using hinit
      · simp only [ne_eq, hnf, not_false_eq_true, reduceIte] at hp
        cases hp
        constructor
        · simp only [userInfoIds, List.mem_append]
          intro hmem
          rcases hmem with hmem | hmem
          · exact hinit hmem
          · exact hnewf (by simpa [userInfoIds] using hmem)
        · simpa [List.mem_toFinset] using hinit

/-- Witness for C9 at the incremental batch `{5: Other 0}` over cache `{5}`,
whose handler run yields cache `{5}` and no effects. -/
theorem relationship_other_state_frame_witness :
    (5 : Nat) ∉ userInfoIds ([] : List Effect) ∧
      (if true = true
        then ((5 : Nat) ∈ ({5} : Finset Nat) ↔ (5 : Nat) ∈ ({5} : Finset Nat))
        else (5 : Nat) ∉ ({5} : Finset Nat)) := by
  exact relationship_other_state_frame true
    [((5 : Nat), EFriendRelationship.Other 0)] {5} 5
    (by intro r hr; simp at hr; subst hr; decide) ({5}, []) (by rfl)

/-- The classifier is total on non-Success codes: it always produces a
classified error rather than failing its assertion. -/
lemma translate_error_isSome (r : EResult) (hr : r ≠ EResult.OK) :
    (translate_error r).isSome = true := by
  cases r
  case OK => exact absurd rfl hr
  case OtherCode n => rfl
  all_goals rfl

/-- The tail of `authenticate` (source lines 117-121), after the login future
has been resolved with `result`: on `OK` the supplied lost-handler is
installed into `_auth_lost_handler` and the call returns normally (no error);
on any other code `translate_error result` is raised and the handler slot is
left as it was. The returned pair is (raised error if any, resulting
`_auth_lost_handler` slot); the outer `Option` is `none` only if
`translate_error` were to fail its assertion, which on a non-OK code it
never does. Handlers are identified by an opaque numeric tag. -/
def authenticate_result (result : EResult) (auth_lost_handler : Nat)
    (slot : Option Nat) : Option (Option TranslatedError × Option Nat) :=
  if result = EResult.OK then
    some (none, some auth_lost_handler)
  else
    (translate_error result).map (fun e => (some e, slot))

/-- C5: resolving the login future with Success installs the supplied
lost-handler and returns without error; resolving it with any other code
raises exactly the error the classifier produces for that code (which always
exists) and leaves the lost-handler slot unchanged. -/
theorem authenticate_result_spec (hdl : Nat) (slot : Option Nat)
    (result : EResult) (hres : result ≠ EResult.OK) :
    authenticate_result EResult.OK hdl slot = some (none, some hdl) ∧
    (translate_error result).isSome = true ∧
    ∀ e, translate_error result = some e →
      authenticate_result result hdl slot = some (some e, slot) := by
  refine ⟨rfl, translate_error_isSome result hres, ?_⟩
  intro e he
  simp [authenticate_result, if_neg hres, he]

/-- Witness for C5 at result=Timeout with handler tag 3 and a previously
installed handler tag 1: the raised error is BackendTimeout carrying the
code, and the slot keeps tag 1. -/
theorem authenticate_result_spec_witness :
    authenticate_result EResult.OK 3 (some 1) = some (none, some 3) ∧
    authenticate_result EResult.Timeout 3 (some 1)
      = some (some ⟨ErrorCategory.BackendTimeout, some EResult.Timeout⟩, some 1) := by
  refine ⟨(authenticate_result_spec 3 (some 1) EResult.Timeout (by decide)).1, ?_⟩
  exact (authenticate_result_spec 3 (some 1) EResult.Timeout (by decide)).2.2
    ⟨ErrorCategory.BackendTimeout, some EResult.Timeout⟩ (by decide)

/-- The collections rendezvous of the transport handle: a one-shot event and
a payload mapping (modelled as an association list). -/
structure CollectionsSlot where
  event : Bool
  collections : List (Nat × Nat)
  deriving DecidableEq, Repr

/-- Embedding of `retrieve_collections` (source lines 131-137): append the
`import_collections` job, suspend until the slot's event is set (suspension
modelled as `none`), then copy the payload, clear the event, replace the
payload by an empty mapping, and return the copy together with the reset
slot. -/
def retrieve_collections (jobs : List String) (slot : CollectionsSlot) :
    List String × Option (List (Nat × Nat) × CollectionsSlot) :=
  let jobs2 := jobs ++ ["import_collections"]
  if slot.event then
    (jobs2, some (slot.collections, ⟨false, []⟩))
  else
    (jobs2, none)

/-- C6: woken with payload P, `retrieve_collections` returns a copy of P and
resets the slot to empty (event cleared, payload emptied), so a subsequent
call on the reset, unsignaled slot suspends again instead of returning the
stale payload; the `import_collections` job is enqueued on every call. -/
theorem retrieve_collections_resets_slot (jobs Q : List String)
    (P : List (Nat × Nat)) (R : List (Nat × Nat)) :
    (retrieve_collections jobs ⟨true, P⟩).2 = some (P, ⟨false, []⟩) ∧
    (retrieve_collections Q ⟨false, R⟩).2 = none ∧
    (retrieve_collections (retrieve_collections jobs ⟨true, P⟩).1
      ⟨false, []⟩).2 = none ∧
    (retrieve_collections jobs ⟨true, P⟩).1 = jobs ++ ["import_collections"] := by
  exact ⟨rfl, rfl, rfl, rfl⟩

/-- Python truthiness of the `appid` argument (an integer: zero is falsy). -/
def py_truthy_nat (n : Nat) : Bool :=
  n ≠ 0

/-- Python truthiness of the `translations` argument (`None` and the empty
list are falsy). -/
def py_truthy_list : Option (List Nat) → Bool
  | some (_ :: _) => true
  | _ => false

/-- Embedding of `_translations_handler` (source lines 195-199). The
Translations Cache is a key→value mapping (spec §3), modelled as an
association list where assignment prepends; localization bundles are opaque
numeric tags. If both `appid` and `translations` are truthy, store
`translations[0]` under `appid`; otherwise, if `appid` is not a key of the
cache, issue one `get_presence_localization` request. -/
def translations_handler (appid : Nat) (translations : Option (List Nat))
    (cache : List (Nat × Nat)) : List (Nat × Nat) × List Effect :=
  if py_truthy_nat appid && py_truthy_list translations then
    ((appid, (translations.getD []).headD 0) :: cache, [])
  else if (cache.lookup appid).isNone then
    (cache, [Effect.getPresenceLocalization appid])
  else
    (cache, [])

/-- C7: for app identifier 42 — with an absent or empty payload and 42 not
cached, exactly one localization request is issued and nothing is stored;
with an absent or empty payload and 42 already cached, no request is issued;
with payload `[a, b]`, `a` is stored under key 42 and no request is issued. -/
theorem translations_handler_spec (cacheMiss cacheHit : List (Nat × Nat))
    (a b : Nat) (hmiss : cacheMiss.lookup 42 = none)
    (hhit : (cacheHit.lookup 42).isSome = true) :
    translations_handler 42 none cacheMiss
      = (cacheMiss, [Effect.getPresenceLocalization 42]) ∧
    translations_handler 42 (some []) cacheMiss
      = (cacheMiss, [Effect.getPresenceLocalization 42]) ∧
    translations_handler 42 none cacheHit = (cacheHit, []) ∧
    translations_handler 42 (some []) cacheHit = (cacheHit, []) ∧
    (translations_handler 42 (some [a, b]) cacheMiss).1.lookup 42 = some a ∧
    (translations_handler 42 (some [a, b]) cacheMiss).2 = [] ∧
    (translations_handler 42 (some [a, b]) cacheHit).1.lookup 42 = some a ∧
    (translations_handler 42 (some [a, b]) cacheHit).2 = [] := by
  refine ⟨?_, ?_, ?_, ?_, ?_, ?_, ?_, ?_⟩ <;>
    simp [translations_handler, py_truthy_nat, py_truthy_list, hmiss,
      Option.isNone_iff_eq_none, Option.isSome_iff_ne_none.mp hhit,
      List.lookup]

/-- Witness for C7 with the empty cache as the miss cache and `[(42, 5)]` as
the hit cache, bundles 8 and 9. -/
theorem translations_handler_spec_witness :
    translations_handler 42 none []
      = ([], [Effect.getPresenceLocalization 42]) ∧
    translations_handler 42 (some []) []
      = ([], [Effect.getPresenceLocalization 42]) ∧
    translations_handler 42 none [(42, 5)] = ([(42, 5)], []) ∧
    translations_handler 42 (some []) [(42, 5)] = ([(42, 5)], []) ∧
    (translations_handler 42 (some [8, 9]) []).1.lookup 42 = some 8 ∧
    (translations_handler 42 (some [8, 9]) []).2 = [] ∧
    (translations_handler 42 (some [8, 9]) [(42, 5)]).1.lookup 42 = some 8 ∧
    (translations_handler 42 (some [8, 9]) [(42, 5)]).2 = [] := by
  exact translations_handler_spec [] [(42, 5)] 8 9 (by decide) (by decide)

/-- A license as delivered to `_license_import_handler`: the only field read
by the session layer is `package_id`. -/
structure License where
  package_id : Nat
  deriving DecidableEq, Repr

/-- The package-identifier accumulation loop of `_license_import_handler`
(source lines 180-183): start from the empty list and append each license's
`package_id` in batch order. -/
def collect_package_ids (licenses : List License) : List Nat :=
  licenses.foldl (fun acc l => acc ++ [l.package_id]) []

/-- Embedding of `_license_import_handler` (source lines 178-187): collect
the batch's package identifiers, notify the Games Cache that a
packages-import starts for exactly that list, then issue one `get_packages_info`
request for the whole list. -/
def license_import_handler (licenses : List License) : List Effect :=
  let package_ids := collect_package_ids licenses
  [Effect.startPackagesImport package_ids, Effect.getPackagesInfo package_ids]

/-- Folding append-of-singletons from any accumulator produces the
accumulator followed by the mapped list. -/
lemma foldl_append_package_ids (licenses : List License) :
    ∀ acc : List Nat,
      licenses.foldl (fun acc l => acc ++ [l.package_id]) acc
        = acc ++ licenses.map License.package_id := by
  induction licenses with
  | nil => intro acc; simp
  | cons l rest ih =>
    intro acc
    simp only [List.foldl_cons, List.map_cons, ih (acc ++ [l.package_id])]
    simp

/-- C8: for every license batch the handler first notifies the Games Cache of
a packages import starting for exactly the batch's package-identifier list in
batch order, then issues exactly one package-info request for that same whole
list; in particular the batch `[⟨7⟩, ⟨9⟩]` produces a start-packages-import
for `[7, 9]` and a single package-info request for `[7, 9]`. -/
theorem license_import_single_request (licenses : List License) :
    license_import_handler licenses
      = [Effect.startPackagesImport (licenses.map License.package_id),
         Effect.getPackagesInfo (licenses.map License.package_id)] ∧
    license_import_handler [⟨7⟩, ⟨9⟩]
      = [Effect.startPackagesImport [7, 9], Effect.getPackagesInfo [7, 9]] := by
  constructor
  · simp [license_import_handler, collect_package_ids, foldl_append_package_ids]
  · rfl

/-- Embedding of `_log_on_handler` (source lines 139-141): the handler
asserts that a login future is pending (`none` models the assertion failure
when no `authenticate` call is in flight) and then resolves that future with
the delivered result code. The slot is `Option` (is a future installed?)
around `Option EResult` (has it been resolved?). -/
def log_on_handler (login_future : Option (Option EResult)) (result : EResult) :
    Option (Option (Option EResult)) :=
  match login_future with
  | none => none
  | some _ => some (some (some result))

/-- C10: invoking the login-result callback with no authenticate call in
flight fails its assertion, and `translate_error` fails its assertion on the
Success code; under their preconditions both are defined — a pending future
is resolved with the delivered code, and a non-Success code is classified. -/
theorem preconditions_asserted :
    (∀ r : EResult, log_on_handler none r = none) ∧
    translate_error EResult.OK = none ∧
    (∀ (slot : Option EResult) (r : EResult),
      log_on_handler (some slot) r = some (some (some r))) ∧
    (∀ r : EResult, r ≠ EResult.OK → (translate_error r).isSome = true) := by
  exact ⟨fun _ => rfl, rfl, fun _ _ => rfl,
    fun r hr => translate_error_isSome r hr⟩

/-- Witness for C10: the assertion failures at concrete inputs and the
defined behaviour at a resolved Timeout. -/
theorem preconditions_asserted_witness :
    log_on_handler none EResult.Timeout = none ∧
    translate_error EResult.OK = none ∧
    log_on_handler (some none) EResult.Timeout = some (some (some EResult.Timeout)) ∧
    (translate_error EResult.Timeout).isSome = true := by
  exact ⟨preconditions_asserted.1 EResult.Timeout, preconditions_asserted.2.1,
    preconditions_asserted.2.2.1 none EResult.Timeout,
    preconditions_asserted.2.2.2 EResult.Timeout (by decide)⟩
